import Mathlib

/-!
Verification of the MiraMon raster driver / reprojection specification.

The repository ships only the test suite for the driver and the warp
algorithm; the driver and warp implementations themselves live outside the
provided sources.  Every definition below is therefore a model built from
the specification's words (each carries a doc comment saying so), and the
theorems check the specification's claims against these models, anchored on
the concrete inputs and outputs the test suite pins down.
-/

namespace GdalSpec

/-- Exact rational arithmetic for the warp engine, embedded as integer
fractions with a positive denominator (kept unnormalized so that every
operation is a plain integer computation).  The spec's "all interpolation
arithmetic in floating point" is modelled exactly. -/
structure Frac where
  num : ℤ
  den : ℤ
  deriving DecidableEq, Repr

namespace Frac

def ofInt (n : ℤ) : Frac := ⟨n, 1⟩

instance : OfNat Frac n := ⟨⟨(n : ℤ), 1⟩⟩

def add (a b : Frac) : Frac := ⟨a.num * b.den + b.num * a.den, a.den * b.den⟩

def sub (a b : Frac) : Frac := ⟨a.num * b.den - b.num * a.den, a.den * b.den⟩

def mul (a b : Frac) : Frac := ⟨a.num * b.num, a.den * b.den⟩

/-- Division, normalizing the sign so the denominator stays positive;
callers guard against a zero divisor. -/
def div (a b : Frac) : Frac :=
  if 0 ≤ b.num then ⟨a.num * b.den, a.den * b.num⟩
  else ⟨-(a.num * b.den), -(a.den * b.num)⟩

instance : Add Frac := ⟨add⟩
instance : Sub Frac := ⟨sub⟩
instance : Mul Frac := ⟨mul⟩
instance : Div Frac := ⟨div⟩

/-- Value equality of fractions (cross multiplication). -/
def eqv (a b : Frac) : Bool := a.num * b.den == b.num * a.den

/-- Strict order on fractions (positive denominators assumed). -/
def blt (a b : Frac) : Bool := a.num * b.den < b.num * a.den

/-- Non-strict order on fractions (positive denominators assumed). -/
def ble (a b : Frac) : Bool := a.num * b.den ≤ b.num * a.den

/-- Floor of a fraction with positive denominator. -/
def floor (a : Frac) : ℤ := a.num.fdiv a.den

def half : Frac := ⟨1, 2⟩

/-- Round to nearest integer (ties up), as the spec's destination-type
conversion requires. -/
def rnd (a : Frac) : ℤ := (a + half).floor

/-- The integer a fraction denotes, when it denotes one. -/
def toInt? (a : Frac) : Option ℤ :=
  let k := a.num.fdiv a.den
  if k * a.den == a.num then some k else none

end Frac

/-- Modelled from the spec: the 6-parameter affine geotransform of a raster
(origin X/Y, pixel width, rotation terms, signed pixel height); the missing
implementation is the warp engine's georeferencing handling (§3
`RelationDescriptor.georeference`). -/
structure GeoTransform where
  originX : Frac
  pixWidth : Frac
  rotX : Frac
  originY : Frac
  rotY : Frac
  pixHeight : Frac
  deriving DecidableEq, Repr

/-- Modelled from the spec: a raster view as the warp engine sees it
(size, georeference, per-band nodata, pixel accessor) — §3 `WarpContext`
`sourceView` / `destinationView`.  Pixels are row-major. -/
structure Raster where
  width : ℕ
  height : ℕ
  gt : GeoTransform
  noData : Option Frac
  pix : List Frac
  deriving DecidableEq, Repr

/-- Pixel accessor: row-major lookup, defaulting to 0 outside the stored
buffer (the warp never reads out of bounds because validity is checked
first). -/
def Raster.getPix (r : Raster) (x y : ℤ) : Frac :=
  if 0 ≤ x ∧ 0 ≤ y ∧ x < (r.width : ℤ) ∧ y < (r.height : ℤ) then
    r.pix.getD (y.toNat * r.width + x.toNat) 0
  else 0

/-- Modelled from the spec: a source sample participates in resampling only
when it lies inside the source raster and differs from the source band's
nodata value (§4.5 step 3). -/
def Raster.validAt (r : Raster) (x y : ℤ) : Bool :=
  decide (0 ≤ x ∧ 0 ≤ y ∧ x < (r.width : ℤ) ∧ y < (r.height : ℤ)) &&
    match r.noData with
    | none => true
    | some nd => !(r.pix.getD (y.toNat * r.width + x.toNat) 0).eqv nd

/-- Forward application of a geotransform: pixel/line coordinates to
georeferenced coordinates. -/
def GeoTransform.apply (g : GeoTransform) (px py : Frac) : Frac × Frac :=
  (g.originX + px * g.pixWidth + py * g.rotX,
   g.originY + px * g.rotY + py * g.pixHeight)

/-- Modelled from the spec: the inverse coordinate mapping used by the warp
(§4.5 step 2, §3 `inverseTransform`): georeferenced coordinates back to
pixel/line coordinates; fails (per point) when the affine part is
singular. -/
def GeoTransform.invApply (g : GeoTransform) (x y : Frac) : Option (Frac × Frac) :=
  let det := g.pixWidth * g.pixHeight - g.rotX * g.rotY
  if det.eqv 0 then none
  else
    some (((x - g.originX) * g.pixHeight - (y - g.originY) * g.rotX).div det,
          ((y - g.originY) * g.pixWidth - (x - g.originX) * g.rotY).div det)

/-- Final conversion to the destination's 8-bit unsigned type: round to
nearest, clamp to the representable bounds (§4.5 "Numeric semantics"). -/
def toByte (q : Frac) : ℤ :=
  max 0 (min 255 q.rnd)

/-- One bilinear support sample: its value together with its bilinear
weight, or nothing when the sample is invalid (out of bounds or nodata), in
which case it is excluded and the remaining weights are renormalized
(§4.5 step 3, bilinear). -/
def bilinearSample (src : Raster) (x y : ℤ) (w : Frac) : Option (Frac × Frac) :=
  if src.validAt x y then some (src.getPix x y * w, w) else none

/-- Modelled from the spec: the bilinear kernel over the 4 enclosing source
pixels with standard bilinear weights; invalid (nodata / outside) samples
are excluded and the weighted average is renormalized over the valid ones;
when no sample is valid the destination pixel is left at its initialized
value, signalled here by `none` (§4.5 step 3 and the authoritative §8
scenario). -/
def bilinearResample (src : Raster) (sx sy : Frac) : Option Frac :=
  let bx : ℤ := (sx - Frac.half).floor
  let biy : ℤ := (sy - Frac.half).floor
  let rx : Frac := 1 - (sx - Frac.half - Frac.ofInt bx)
  let ry : Frac := 1 - (sy - Frac.half - Frac.ofInt biy)
  let samples := [bilinearSample src bx biy (rx * ry),
                  bilinearSample src (bx + 1) biy ((1 - rx) * ry),
                  bilinearSample src bx (biy + 1) (rx * (1 - ry)),
                  bilinearSample src (bx + 1) (biy + 1) ((1 - rx) * (1 - ry))]
  let acc := samples.foldl
    (fun a s => match s with
      | none => a
      | some (v, w) => (a.1 + v, a.2 + w)) ((0 : Frac), (0 : Frac))
  if acc.2.eqv 0 then none else some (acc.1.div acc.2)

/-- Modelled from the spec: the per-destination-pixel warp step (§4.5
steps 2–3): map the destination pixel center through the destination
geotransform and back through the source's inverse; skip the pixel (leave
it at its initialized value `cur`) when the mapping fails, falls outside
the source, or the source pixel containing the mapped center is nodata —
the nodata-boundary rule the §8 scenario fixes as the authoritative
contract; otherwise bilinearly resample and convert to the destination
byte type. -/
def warpPixel (src dst : Raster) (dx dy : ℕ) (cur : Frac) : Frac :=
  let c := dst.gt.apply (Frac.ofInt dx + Frac.half) (Frac.ofInt dy + Frac.half)
  match src.gt.invApply c.1 c.2 with
  | none => cur
  | some (sx, sy) =>
    if sx.blt 0 || sy.blt 0 || (Frac.ofInt src.width).ble sx ||
        (Frac.ofInt src.height).ble sy then cur
    else if !src.validAt sx.floor sy.floor then cur
    else
      match bilinearResample src sx sy with
      | none => cur
      | some v => Frac.ofInt (toByte v)

/-- Modelled from the spec: the destination-initialization policy (§4.5
step 1): nodata-fill pre-fills every destination pixel with the band's
nodata value; the "do nothing" policy leaves the caller's buffer
untouched. -/
def initDest (dst : Raster) (policy : Option Frac) : Raster :=
  match policy with
  | none => dst
  | some v => { dst with pix := List.replicate (dst.width * dst.height) v }

/-- Modelled from the spec: `ReprojectImage` with bilinear resampling
(§4.5, §6 "Reprojection call surface"): initialize the destination per the
policy, then for every destination pixel run the warp step, writing only
pixels the warp can resolve. -/
def reprojectBilinear (src dst : Raster) (policy : Option Frac) : Raster :=
  let d := initDest dst policy
  { d with
    pix := (List.range (d.height * d.width)).map
      (fun i => warpPixel src d (i % d.width) (i / d.width)
        (d.pix.getD i 0)) }

/-- The 4×3 single-band byte source of the nodata scenario: nodata 2,
values `[2,127,127,2]` on each of the three rows, geotransform
(10,1,0,10,0,-1). -/
def srcNodataTest : Raster :=
  { width := 4, height := 3
    gt := ⟨10, 1, 0, 10, 0, ⟨-1, 1⟩⟩
    noData := some 2
    pix := [2, 127, 127, 2, 2, 127, 127, 2, 2, 127, 127, 2] }

/-- The 6×3 destination of the nodata scenario, nodata 3, pre-filled to 3,
geotransform (10,2/3,0,10,0,-1). -/
def dstNodataPrefilled : Raster :=
  { width := 6, height := 3
    gt := ⟨10, ⟨2, 3⟩, 0, 10, 0, ⟨-1, 1⟩⟩
    noData := some 3
    pix := List.replicate 18 3 }

/-- The same 6×3 destination but not pre-filled by the caller (a fresh
in-memory raster holds zeros). -/
def dstNodataZeros : Raster :=
  { dstNodataPrefilled with pix := List.replicate 18 0 }

/-- The 18 destination values the scenario requires. -/
def expectedNodataOut : List ℤ :=
  [3, 127, 127, 127, 3, 3, 3, 127, 127, 127, 3, 3, 3, 127, 127, 127, 3, 3]

/-! ## MiraMon raster driver: sample types and band codec -/

/-- Modelled from the spec: the band sample types the format supports (§3
`BandDescriptor.dataType`): {unsigned-8, signed-16, unsigned-16, signed-32,
float32, float64, 1-bit}. -/
inductive SampleType
  | bit1
  | u8
  | i16
  | u16
  | i32
  | f32
  | f64
  deriving DecidableEq, Repr

/-- Modelled from the spec: per-band compression (§3
`BandDescriptor.compression`): none, or run-length-encoded. -/
inductive Compression
  | raw
  | rle
  deriving DecidableEq, Repr

/-- Modelled from the spec: sample-type conversion with
saturation/rounding appropriate to the destination type (§4.5 "Numeric
semantics", §4.3 type-preserving round trip); float types keep the exact
value, integer types round to nearest and clamp to the representable
bounds, the 1-bit type to {0,1}. -/
def convertSample (t : SampleType) (v : Frac) : Frac :=
  match t with
  | .bit1 => Frac.ofInt (max 0 (min 1 v.rnd))
  | .u8 => Frac.ofInt (max 0 (min 255 v.rnd))
  | .i16 => Frac.ofInt (max (-32768) (min 32767 v.rnd))
  | .u16 => Frac.ofInt (max 0 (min 65535 v.rnd))
  | .i32 => Frac.ofInt (max (-2147483648) (min 2147483647 v.rnd))
  | .f32 => v
  | .f64 => v

/-- Modelled from the spec: the contents of one physical band file — a raw
fixed-size-per-sample stream, a run-length-encoded stream of
(repeat count, value) units, or a bit-packed stream for the 1-bit type
(§4.2, §3 1-bit invariant).  Samples are carried exactly; the byte-level
layout that matters to the observed behavior (bit packing order, RLE
structure) is explicit. -/
inductive BandStream
  | raw (samples : List Frac)
  | rle (runs : List (ℕ × Frac))
  | packedBits (bytes : List ℕ)
  deriving DecidableEq, Repr

/-- Modelled from the spec: 1-bit decoding — 8 samples packed per byte,
most-significant-bit first; decode must reproduce the exact per-pixel bit
sequence (§3 1-bit invariant). -/
def unpackBits (bytes : List ℕ) : List ℕ :=
  bytes.flatMap (fun b =>
    [b / 128 % 2, b / 64 % 2, b / 32 % 2, b / 16 % 2,
     b / 8 % 2, b / 4 % 2, b / 2 % 2, b % 2])

/-- Modelled from the spec: deterministic greedy run-length encoding of a
sample stream (§4.2: each encoded unit states a repeat count and a value;
deterministic, round-trip-exact). -/
def rleEncode : List Frac → List (ℕ × Frac)
  | [] => []
  | x :: xs =>
    match rleEncode xs with
    | [] => [(1, x)]
    | (n, y) :: rest =>
      if x = y then (n + 1, y) :: rest else (1, x) :: (n, y) :: rest

/-- Run-length decoding: expand every (count, value) unit. -/
def rleDecode (runs : List (ℕ × Frac)) : List Frac :=
  runs.flatMap (fun r => List.replicate r.1 r.2)

/-- Modelled from the spec: the band codec's read path (§4.2): decode a
physical band stream into exactly `count` samples; a truncated or
over-long stream is an error (`none`). -/
def decodeStream (s : BandStream) (count : ℕ) : Option (List Frac) :=
  match s with
  | .raw samples => if samples.length = count then some samples else none
  | .rle runs =>
    let samples := rleDecode runs
    if samples.length = count then some samples else none
  | .packedBits bytes =>
    if count ≤ 8 * bytes.length then
      some (((unpackBits bytes).take count).map Frac.ofInt)
    else none

/-- Modelled from the spec: the band codec's write path (§4.2): 1-bit data
is bit-packed; otherwise the stream is raw or run-length-encoded according
to the band's compression choice. -/
def encodeStream (t : SampleType) (c : Compression) (samples : List Frac) :
    BandStream :=
  match t, c with
  | .bit1, _ =>
    .packedBits ((samples.toChunks 8).map (fun chunk =>
      (chunk.map (fun v => max 0 (min 1 v.rnd).toNat)).foldl
        (fun acc b => acc * 2 + b) 0 *
        2 ^ (8 - chunk.length)))
  | _, .raw => .raw samples
  | _, .rle => .rle (rleEncode samples)

/-- The 8×8 1-bit checkerboard: bit-packed rows alternate between
`01010101` and `10101010` (MSB first: bytes 0x55 and 0xAA). -/
def chessBytes : List ℕ := [85, 170, 85, 170, 85, 170, 85, 170]

/-- The checkerboard pattern: pixel (i, j) = (i + j) mod 2, row-major over
an 8×8 grid. -/
def chessPattern : List ℕ :=
  (List.range 64).map (fun k => (k / 8 + k % 8) % 2)

/-! ## Color table / RAT bridge -/

/-- A color table entry: (R, G, B, A), each in [0, 255]. -/
structure ColorEntry where
  r : ℤ
  g : ℤ
  b : ℤ
  a : ℤ
  deriving DecidableEq, Repr

/-- Modelled from the spec: a color table is an ordered mapping from
integer pixel value to an RGBA color (§3 `BandDescriptor.colorTable`),
embedded as an association list index → entry. -/
def ColorTable := List (ℤ × ColorEntry)
  deriving DecidableEq, Repr

/-- Color-table lookup by pixel value. -/
def getColorEntry (ct : ColorTable) (i : ℤ) : Option ColorEntry :=
  (ct.find? (fun e => e.1 == i)).map Prod.snd

/-- Modelled from the spec: the semantic role a RAT column is tagged with
(§3 `BandDescriptor.attributeTable`): generic, min, max,
min-max-combined, name, red, green, blue. -/
inductive FieldUsage
  | generic
  | minVal
  | maxVal
  | minMax
  | nameOf
  | red
  | green
  | blue
  deriving DecidableEq, Repr

/-- The declared type of a RAT column. -/
inductive FieldType
  | tInt
  | tReal
  | tString
  deriving DecidableEq, Repr

/-- One RAT column: name, declared type, semantic role. -/
structure RatColumn where
  colName : String
  ftype : FieldType
  usage : FieldUsage
  deriving DecidableEq, Repr

/-- One typed RAT cell. -/
inductive RatCell
  | cInt (i : ℤ)
  | cReal (v : Frac)
  | cStr (s : String)
  deriving DecidableEq, Repr

/-- Modelled from the spec: a raster attribute table — ordered columns,
each tagged with a semantic role, and rows of typed cells (§3
`BandDescriptor.attributeTable`). -/
structure AttributeTable where
  cols : List RatColumn
  rows : List (List RatCell)
  deriving DecidableEq, Repr

/-- Index of the first column carrying a given role, if any. -/
def AttributeTable.findCol (t : AttributeTable) (u : FieldUsage) : Option ℕ :=
  t.cols.findIdx? (fun c => c.usage == u)

/-- The integer held by a row's cell at a column index (0 when the cell is
absent or not an integer; the derivation only reads well-typed cells). -/
def rowInt (row : List RatCell) (i : ℕ) : ℤ :=
  match row.getD i (.cInt 0) with
  | .cInt v => v
  | _ => 0

/-- Modelled from the spec: the integer indices one RAT row represents
(§4.4): the combined min-max column's single value, or every integer in
the half-open range [min, max) of separate min/max columns. -/
def rowIndices (t : AttributeTable) (row : List RatCell) : List ℤ :=
  match t.findCol .minMax with
  | some iv => [rowInt row iv]
  | none =>
    match t.findCol .minVal, t.findCol .maxVal with
    | some imin, some imax =>
      (List.range (rowInt row imax - rowInt row imin).toNat).map
        (fun k => rowInt row imin + k)
    | _, _ => []

/-- Modelled from the spec: `deriveColorTable` (§4.4): when the table has
red, green and blue role columns together with a class-identifying column
(one min-max-combined column, or separate min and max columns), each row
maps every index it represents to its RGB triplet with alpha fixed at 255;
when the required roles are absent the result is `None` — the band is
treated as non-palette, never an error. -/
def deriveColorTable (t : AttributeTable) : Option ColorTable :=
  match t.findCol .red, t.findCol .green, t.findCol .blue with
  | some ir, some ig, some ib =>
    if (t.findCol .minMax).isSome ∨
        ((t.findCol .minVal).isSome ∧ (t.findCol .maxVal).isSome) then
      some (t.rows.flatMap (fun row =>
        (rowIndices t row).map (fun idx =>
          (idx, ⟨rowInt row ir, rowInt row ig, rowInt row ib, 255⟩))))
    else none
  | _, _, _ => none

/-! ## Relation file and the driver facade -/

/-- Modelled from the spec: the per-band portion of a parsed relation file
(§3 `BandDescriptor`, §6 relation file syntax): referenced pixel file,
raw data-type key (possibly missing, possibly an unhandled code),
compression, optional nodata, optional stored palette, optional RAT, and
the band's unit. -/
structure RelBand where
  fileName : String
  dataTypeCode : Option ℤ
  compression : Compression
  noData : Option Frac
  storedColorTable : Option ColorTable
  attrTable : Option AttributeTable
  unitType : String
  deriving DecidableEq, Repr

/-- Modelled from the spec: a parsed relation file (§3
`RelationDescriptor`, §6): the REL4 signature, the numeric
`VersMetaDades` version key, the geometry keys (possibly missing),
the georeference, the band-index section (possibly missing), and the
optional grouping of bands into independently-addressable subdatasets. -/
structure RelFile where
  isRel4 : Bool
  versMetaDades : Option ℤ
  nCols : Option ℤ
  nRows : Option ℤ
  gt : GeoTransform
  bandSection : Option (List RelBand)
  groupings : List (List ℕ)
  deriving DecidableEq, Repr

/-- Modelled from the spec: the filesystem contents the driver can see —
relation files keyed by their base name (the physical file is
`baseI.rel`) and physical band streams keyed by file name. -/
structure Storage where
  rels : List (String × RelFile)
  streams : List (String × BandStream)
  deriving Repr

def Storage.lookupRel (st : Storage) (base : String) : Option RelFile :=
  (st.rels.find? (fun e => e.1 == base)).map Prod.snd

def Storage.lookupStream (st : Storage) (nm : String) : Option BandStream :=
  (st.streams.find? (fun e => e.1 == nm)).map Prod.snd

/-- Modelled from the spec: the data-type key decoding — the handled codes
name the seven supported sample types, anything else is unhandled
(§4.1 "unsupported data type"). -/
def decodeDataType (code : ℤ) : Option SampleType :=
  if code = 1 then some .bit1
  else if code = 2 then some .u8
  else if code = 3 then some .i16
  else if code = 4 then some .u16
  else if code = 5 then some .i32
  else if code = 6 then some .f32
  else if code = 7 then some .f64
  else none

/-- One band of an opened MiraMon dataset. -/
structure MMBand where
  dtype : SampleType
  samples : List Frac
  noData : Option Frac
  colorTable : Option ColorTable
  attrTable : Option AttributeTable
  unitType : String
  deriving DecidableEq, Repr

/-- An opened MiraMon dataset: geometry, georeference, bands. -/
structure MMDataset where
  width : ℕ
  height : ℕ
  gt : GeoTransform
  bands : List MMBand
  deriving DecidableEq, Repr

/-- Modelled from the spec: the color table a band exposes (§3 invariant):
the stored palette when present, else the table derived from the RAT's
RGB-role columns; derivation is transparent and its absence is never an
error. -/
def resolveColorTable (stored : Option ColorTable)
    (rat : Option AttributeTable) : Option ColorTable :=
  match stored with
  | some ct => some ct
  | none => rat.bind deriveColorTable

/-- Modelled from the spec: opening one band listed in the relation file
(§4.1, §7): a missing data-type key, an unhandled data-type code, an
unreadable referenced band file, and a stream that does not decode to
exactly width*height samples are each a distinct fatal error. -/
def openBand (st : Storage) (w h : ℕ) (b : RelBand) : Except String MMBand :=
  match b.dataTypeCode with
  | none => .error "MiraMonRaster: no nDataType documented"
  | some code =>
    match decodeDataType code with
    | none => .error "MiraMonRaster: data type unhandled"
    | some t =>
      match st.lookupStream b.fileName with
      | none => .error "Failed to open MiraMon band file"
      | some stream =>
        match decodeStream stream (w * h) with
        | none => .error "Truncated MiraMon band file"
        | some samples =>
          .ok ⟨t, samples, b.noData,
            resolveColorTable b.storedColorTable b.attrTable,
            b.attrTable, b.unitType⟩

/-- Opening every band listed in the relation file's band-index section,
in order, stopping at the first failing band. -/
def openBands (st : Storage) (w h : ℕ) :
    List RelBand → Except String (List MMBand)
  | [] => .ok []
  | b :: rest =>
    match openBand st w h b with
    | .error e => .error e
    | .ok mb => (openBands st w h rest).map (fun l => mb :: l)

/-- Modelled from the spec: opening a parsed relation file (§4.1, §4.3,
§7): the checks run in a fixed order — REL4 signature, minimum version,
columns key, rows key, positive dimensions, band-index section presence,
at least one usable band — each failure carrying its distinguishing
message, then every listed band is opened. -/
def openRelFile (st : Storage) (f : RelFile) : Except String MMDataset :=
  if !f.isRel4 then .error "The file must be REL4" else
  match f.versMetaDades with
  | none => .error "The file must have VersMetaDades>=4"
  | some v =>
    if v < 4 then .error "The file must have VersMetaDades>=4" else
    match f.nCols with
    | none => .error "No number of columns documented"
    | some w =>
      match f.nRows with
      | none => .error "No number of rows documented"
      | some h =>
        if w ≤ 0 ∨ h ≤ 0 then .error "(nWidth <= 0 || nHeight <= 0)" else
        match f.bandSection with
        | none =>
          .error "ATTRIBUTE_DATA-IndexsNomsCamps section-key should exist"
        | some bandList =>
          if bandList.isEmpty then .error "it has zero usable bands" else
          (openBands st w.toNat h.toNat bandList).map
            (fun bands => ⟨w.toNat, h.toNat, f.gt, bands⟩)

/-- Modelled from the spec: the ways the driver can be pointed at a
MiraMon dataset — a relation file (whose on-disk name is `baseI.rel` when
`iSuffix` is true, a bare `base.rel` otherwise), or a physical pixel file
`base.img`. -/
inductive MMPath
  | relPath (base : String) (iSuffix : Bool)
  | imgPath (base : String)
  deriving DecidableEq, Repr

/-- Modelled from the spec: the cheap identification sniff (§4.3, §6): a
relation file is recognized only under its `I.rel` companion naming and
when present in storage; a pixel file is recognized only when both it and
its companion relation file exist — a relation or image file without its
mandatory companion is not recognized. -/
def identify (st : Storage) (p : MMPath) : Bool :=
  match p with
  | .relPath base i => i && (st.lookupRel base).isSome
  | .imgPath base =>
    (st.lookupStream (base ++ ".img")).isSome && (st.lookupRel base).isSome

/-- The message GDAL raises when no driver recognizes a file. -/
def unrecognizedMsg : String :=
  "not recognized as being in a supported file format"

/-- Modelled from the spec: the driver facade's `open` (§4.3): an input
failing identification fails with the generic unrecognized-format message;
otherwise the companion relation file is parsed and opened, both for a
relation-file path and for a pixel-file path. -/
def openPath (st : Storage) (p : MMPath) : Except String MMDataset :=
  if !identify st p then .error unrecognizedMsg else
  match p with
  | .relPath base _ =>
    match st.lookupRel base with
    | none => .error unrecognizedMsg
    | some f => openRelFile st f
  | .imgPath base =>
    match st.lookupRel base with
    | none => .error unrecognizedMsg
    | some f => openRelFile st f

/-! ## Subdatasets -/

/-- Modelled from the spec: a subdataset identifier, constructed
deterministically from the relation path plus the subdataset index
(§4.3 "Subdataset enumeration"); indices are 1-based as identifiers. -/
structure SubdatasetId where
  relBase : String
  index : ℕ
  deriving DecidableEq, Repr

/-- The human-readable description attached to a subdataset entry. -/
def subdatasetDesc (base : String) : String :=
  "MiraMon subdataset of " ++ base ++ "I.rel"

/-- Modelled from the spec: `listSubdatasets` (§4.3): the ordered sequence
of (identifier, description) pairs, one per grouping the relation file
describes, the identifier being a pure function of the relation path and
the subdataset index. -/
def listSubdatasets (st : Storage) (base : String) :
    List (SubdatasetId × String) :=
  match st.lookupRel base with
  | none => []
  | some f =>
    (List.range f.groupings.length).map
      (fun i => (⟨base, i + 1⟩, subdatasetDesc base))

/-- Modelled from the spec: the relation-file view restricted to one
grouping's bands (§3 "Subdataset set"). -/
def restrictToGrouping (f : RelFile) (g : List ℕ) : RelFile :=
  { f with
    bandSection := f.bandSection.map (fun bl => g.filterMap bl.get?)
    groupings := [] }

/-- Modelled from the spec: opening a subdataset identifier yields an
independent dataset restricted to that grouping's bands (§3, §4.3). -/
def openSubdataset (st : Storage) (sid : SubdatasetId) :
    Except String MMDataset :=
  match st.lookupRel sid.relBase with
  | none => .error unrecognizedMsg
  | some f =>
    if 1 ≤ sid.index ∧ sid.index ≤ f.groupings.length then
      openRelFile st (restrictToGrouping f (f.groupings.getD (sid.index - 1) []))
    else .error unrecognizedMsg

/-! ## Create-copy -/

/-- Modelled from the spec: the color interpretation a source band
carries (§4.3 `createCopy`): palette index, an RGB channel role, or
nothing in particular. -/
inductive ColorInterp
  | undef
  | palette
  | redBand
  | greenBand
  | blueBand
  deriving DecidableEq, Repr

/-- One band of a source dataset handed to `createCopy` (its pixel values
as stored in the source's sample type, nodata, unit, color
interpretation, optional palette and RAT). -/
structure SrcBand where
  values : List Frac
  noData : Option Frac
  unitType : String
  interp : ColorInterp
  colorTable : Option ColorTable
  attrTable : Option AttributeTable
  deriving DecidableEq, Repr

/-- A source dataset handed to `createCopy`: geometry, one storage sample
type, georeference and bands. -/
structure SrcDataset where
  width : ℕ
  height : ℕ
  dtype : SampleType
  gt : GeoTransform
  bands : List SrcBand
  deriving DecidableEq, Repr

/-- The data-type key the writer emits: the inverse of
`decodeDataType`. -/
def codeOfType : SampleType → ℤ
  | .bit1 => 1
  | .u8 => 2
  | .i16 => 3
  | .u16 => 4
  | .i32 => 5
  | .f32 => 6
  | .f64 => 7

/-- Band-index suffixes for channel files that carry no RGB role. -/
def indexSuffix (i : ℕ) : String :=
  ["_1", "_2", "_3", "_4", "_5", "_6", "_7", "_8"].getD i "_X"

/-- Modelled from the spec: deterministic physical-file naming derived
from the relation file's base name (or the `PATTERN` option's template)
and the band role — `_R`/`_G`/`_B` suffixes for RGB triplets, band-index
suffixes otherwise (§6 "Physical band file", §4.3). -/
def bandFileName (base : String) (pattern : Option String)
    (interp : ColorInterp) (i : ℕ) : String :=
  let stem := match pattern with
    | some p => p
    | none => base
  match interp with
  | .redBand => stem ++ "_R.img"
  | .greenBand => stem ++ "_G.img"
  | .blueBand => stem ++ "_B.img"
  | _ => stem ++ indexSuffix i ++ ".img"

/-- The files `createCopy` materializes: the relation file (on disk
`relBaseI.rel`), the physical band streams, and the `.mmm` sidecar. -/
structure WrittenFiles where
  relBase : String
  rel : RelFile
  streams : List (String × BandStream)
  sidecars : List String
  deriving Repr

/-- The physical file names a create-copy leaves behind. -/
def writtenFileNames (w : WrittenFiles) : List String :=
  (w.relBase ++ "I.rel") :: (w.streams.map Prod.fst ++ w.sidecars)

/-- Modelled from the spec: `createCopy` (§4.3): derive a relation
descriptor from the source's geometry/type/georeference per band, apply
the write-time options (compression on/off, file-naming pattern), write
one physical band file per source band plus one relation file (and the
`.mmm` sidecar the driver emits alongside), persisting nodata, any stored
color table and any RAT verbatim. -/
def createCopy (base : String) (src : SrcDataset) (comp : Compression)
    (pattern : Option String) : WrittenFiles :=
  let items := src.bands.enum.map (fun e =>
    let nm := bandFileName base pattern e.2.interp e.1
    ({ fileName := nm
       dataTypeCode := some (codeOfType src.dtype)
       compression := comp
       noData := e.2.noData
       storedColorTable := e.2.colorTable
       attrTable := e.2.attrTable
       unitType := e.2.unitType : RelBand },
     (nm, encodeStream src.dtype comp e.2.values)))
  { relBase := base
    rel := { isRel4 := true
             versMetaDades := some 4
             nCols := some src.width
             nRows := some src.height
             gt := src.gt
             bandSection := some (items.map Prod.fst)
             groupings := [] }
    streams := items.map Prod.snd
    sidecars := [base ++ ".mmm"] }

/-- The storage a finished create-copy leaves on disk. -/
def WrittenFiles.toStorage (w : WrittenFiles) : Storage :=
  ⟨[(w.relBase, w.rel)], w.streams⟩

/-- Reopening a just-written dataset through the driver facade. -/
def reopen (w : WrittenFiles) : Except String MMDataset :=
  openPath w.toStorage (.relPath w.relBase true)

/-- Reading a band's full pixel data with a requested sample type
(GDAL's typed `ReadRaster`): every sample converted to the requested
type. -/
def readAs (t : SampleType) (b : MMBand) : List Frac :=
  b.samples.map (convertSample t)

/-- Modelled from the spec: computed min/max statistics of a band — the
extrema of the samples that differ from the band's nodata value
(§4.3 "computed min/max statistics matching the written data"). -/
def computeMinMax (b : MMBand) : Option (Frac × Frac) :=
  let vals := match b.noData with
    | none => b.samples
    | some nd => b.samples.filter (fun v => !v.eqv nd)
  match vals with
  | [] => none
  | x :: xs =>
    some (xs.foldl (fun m v => if v.blt m then v else m) x,
          xs.foldl (fun m v => if m.blt v then v else m) x)

/-- Decidable equality of driver results (success or error message). -/
instance {ε α : Type} [DecidableEq ε] [DecidableEq α] :
    DecidableEq (Except ε α) := fun a b =>
  match a, b with
  | .ok x, .ok y =>
    if h : x = y then .isTrue (by rw [h])
    else .isFalse (by intro hc; injection hc; contradiction)
  | .error x, .error y =>
    if h : x = y then .isTrue (by rw [h])
    else .isFalse (by intro hc; injection hc; contradiction)
  | .ok _, .error _ => .isFalse (by intro hc; injection hc)
  | .error _, .ok _ => .isFalse (by intro hc; injection hc)

/-! ## Concrete fixtures pinned down by the test suite -/

/-- A unit geotransform (origin 0, pixel size (1,-1)). -/
def gtUnit : GeoTransform := ⟨0, 1, 0, 0, 0, ⟨-1, 1⟩⟩

/-- The color table written on band 1 of the multiband create-copy
scenario. -/
def mbColors : ColorTable :=
  [(0, ⟨0, 0, 0, 0⟩), (1, ⟨255, 0, 0, 255⟩), (2, ⟨0, 255, 0, 255⟩),
   (3, ⟨0, 0, 255, 255⟩), (4, ⟨0, 125, 125, 255⟩),
   (5, ⟨125, 125, 255, 255⟩)]

/-- The class names of the multiband scenario's RAT. -/
def mbClassNames : List String :=
  ["Background", "Class_1", "Class_2", "Class_3", "Class_4", "Class_5"]

/-- The real-valued column of the multiband scenario's RAT. -/
def mbReals : List Frac :=
  [⟨1, 10⟩, ⟨12, 10⟩, ⟨23, 10⟩, ⟨34, 10⟩, ⟨45, 10⟩, ⟨56, 10⟩]

/-- The multiband scenario's RAT: an integer class column whose role is a
test parameter, a name column, and a real column; six rows for classes
0–5. -/
def mbRat (u : FieldUsage) : AttributeTable :=
  { cols := [⟨"Value", .tInt, u⟩, ⟨"ClassName", .tString, .nameOf⟩,
             ⟨"Real", .tReal, .generic⟩]
    rows := (List.range 6).map (fun (i : ℕ) =>
      [.cInt (i : ℤ), .cStr (mbClassNames.getD i ""),
       .cReal (mbReals.getD i 0)]) }

/-- The two-band source dataset of the multiband create-copy scenario:
3×2, storage type `t1`, band 1 holding 0..5 (with a palette when the type
is byte and a RAT when it is byte or unsigned-16, as the scenario sets
them up), band 2 holding 100..105 routed through sample type `t2`, both
with nodata 0, band 2 carrying unit "m". -/
def mbSrc (t1 t2 : SampleType) (u : FieldUsage) : SrcDataset :=
  { width := 3, height := 2, dtype := t1
    gt := ⟨100, 10, 0, 200, 0, ⟨-10, 1⟩⟩
    bands :=
      [{ values := (List.range 6).map (fun i => convertSample t1 (Frac.ofInt i))
         noData := some 0
         unitType := ""
         interp := if t1 = .u8 then .palette else .undef
         colorTable := if t1 = .u8 then some mbColors else none
         attrTable := if t1 = .u8 ∨ t1 = .u16 then some (mbRat u) else none },
       { values := (List.range 6).map (fun i =>
           convertSample t1 (convertSample t2 (Frac.ofInt (100 + i))))
         noData := some 0
         unitType := "m"
         interp := .undef
         colorTable := none
         attrTable := none }] }

/-- All the checks the multiband round trip must pass after reopening:
geometry, geotransform, per-band pixel data read back in the original
types, band types, nodata, color table, RAT (with its row count), min/max
statistics excluding nodata, and the band unit. -/
def mbRoundtripOK (t1 t2 : SampleType) (comp : Compression)
    (pat : Option String) (u : FieldUsage) : Bool :=
  let src := mbSrc t1 t2 u
  match reopen (createCopy "test" src comp pat) with
  | .error _ => false
  | .ok ds =>
    match ds.bands with
    | [b1, b2] =>
      ds.width == 3 && ds.height == 2 &&
      ds.gt == src.gt &&
      readAs t1 b1 == (List.range 6).map Frac.ofInt &&
      readAs t2 b2 == (List.range 6).map (fun i => Frac.ofInt (100 + i)) &&
      b1.dtype == t1 && b2.dtype == t1 &&
      b1.noData == some 0 && b2.noData == some 0 &&
      b1.colorTable == (if t1 = .u8 then some mbColors else none) &&
      b1.attrTable == (if t1 = .u8 ∨ t1 = .u16 then some (mbRat u) else none) &&
      b1.attrTable.map (fun r => r.rows.length) ==
        (if t1 = .u8 ∨ t1 = .u16 then some 6 else none) &&
      b1.attrTable.map (fun r => r.cols.map RatColumn.colName) ==
        (if t1 = .u8 ∨ t1 = .u16 then
          some ["Value", "ClassName", "Real"] else none) &&
      computeMinMax b1 == some (1, 5) &&
      computeMinMax b2 == some (100, 105) &&
      b2.unitType == "m"
    | _ => false

/-- The sample types create-copy supports (the 1-bit type is read-only in
the scenario's parametrization). -/
def copyTypes : List SampleType := [.u8, .i16, .u16, .i32, .f32, .f64]

/-- The RGB color triplets of the RAT-to-color-table scenario. -/
def ctColors : List ColorEntry :=
  [⟨0, 0, 0, 255⟩, ⟨255, 0, 0, 255⟩, ⟨0, 255, 0, 255⟩, ⟨0, 0, 255, 255⟩,
   ⟨0, 125, 125, 255⟩, ⟨125, 125, 255, 255⟩]

/-- The RAT with a combined value column plus R/G/B columns mapping class
values 0–5 to the scenario's colors. -/
def ratCombined : AttributeTable :=
  { cols := [⟨"VALUE", .tInt, .minMax⟩, ⟨"R", .tInt, .red⟩,
             ⟨"G", .tInt, .green⟩, ⟨"B", .tInt, .blue⟩]
    rows := (List.range 6).map (fun (c : ℕ) =>
      let e := ctColors.getD c ⟨0, 0, 0, 0⟩
      [.cInt (c : ℤ), .cInt e.r, .cInt e.g, .cInt e.b]) }

/-- The same classes encoded with separate min/max columns, each row
covering the half-open range [c, c+1). -/
def ratSeparate : AttributeTable :=
  { cols := [⟨"MIN", .tInt, .minVal⟩, ⟨"MAX", .tInt, .maxVal⟩,
             ⟨"R", .tInt, .red⟩, ⟨"G", .tInt, .green⟩, ⟨"B", .tInt, .blue⟩]
    rows := (List.range 6).map (fun (c : ℕ) =>
      let e := ctColors.getD c ⟨0, 0, 0, 0⟩
      [.cInt (c : ℤ), .cInt ((c : ℤ) + 1), .cInt e.r, .cInt e.g, .cInt e.b]) }

/-- The color table both RAT encodings must derive to: entry at each class
index is that row's RGB triplet with alpha 255. -/
def expectedDerivedCT : ColorTable :=
  (List.range 6).map (fun (c : ℕ) => ((c : ℤ), ctColors.getD c ⟨0, 0, 0, 0⟩))

/-- A RAT in the "Automatic" categorical styling shape: a class column and
a name column but no R/G/B roles. -/
def automaticRat : AttributeTable :=
  { cols := [⟨"Value", .tInt, .minMax⟩, ⟨"Categ", .tString, .nameOf⟩]
    rows := (List.range 6).map (fun (c : ℕ) => [.cInt (c : ℤ), .cStr "categ"]) }

/-- A relation file whose single byte band carries the "Automatic" RAT
and no stored palette. -/
def automaticRel : RelFile :=
  { isRel4 := true, versMetaDades := some 4, nCols := some 2, nRows := some 3
    gt := gtUnit
    bandSection := some [⟨"autom.img", some 2, .raw, none, none,
      some automaticRat, ""⟩]
    groupings := [] }

/-- Storage holding the "Automatic" styling dataset. -/
def automaticStorage : Storage :=
  ⟨[("autom", automaticRel)], [("autom.img", .raw [0, 1, 2, 3, 4, 5])]⟩

/-- The 3-band RGB-interpreted source (3×1, byte): X=0 red, X=1 green,
X=2 blue, no palette, no RAT. -/
def rgbSrc : SrcDataset :=
  { width := 3, height := 1, dtype := .u8, gt := gtUnit
    bands := [⟨[255, 0, 0], none, "", .redBand, none, none⟩,
              ⟨[0, 255, 0], none, "", .greenBand, none, none⟩,
              ⟨[0, 0, 255], none, "", .blueBand, none, none⟩] }

/-- The files the RGB create-copy materializes under base name
`rgb_primary`. -/
def rgbWritten : WrittenFiles := createCopy "rgb_primary" rgbSrc .raw none

/-- The multiband relation file with three single-band groupings: band 2
has nodata 255, band 3 nodata 0, band 1 none. -/
def multibandRel : RelFile :=
  { isRel4 := true, versMetaDades := some 4, nCols := some 2, nRows := some 3
    gt := gtUnit
    bandSection := some
      [⟨"mb_1.img", some 2, .raw, none, none, none, ""⟩,
       ⟨"mb_2.img", some 2, .raw, some 255, none, none, ""⟩,
       ⟨"mb_3.img", some 2, .raw, some 0, none, none, ""⟩]
    groupings := [[0], [1], [2]] }

/-- Storage holding the three-subdataset relation and its band files. -/
def multibandStorage : Storage :=
  ⟨[("byte_2x3_6_multiband", multibandRel)],
   [("mb_1.img", .raw [0, 1, 2, 3, 4, 5]),
    ("mb_2.img", .raw [0, 1, 2, 3, 4, 255]),
    ("mb_3.img", .raw [0, 1, 2, 3, 4, 5])]⟩

/-- A normal single-band byte dataset stored run-length-encoded, openable
both through its `.img` and its `I.rel`. -/
def normalRel : RelFile :=
  { isRel4 := true, versMetaDades := some 4, nCols := some 2, nRows := some 3
    gt := gtUnit
    bandSection := some [⟨"byte_2x3_6_categs.img", some 2, .rle, none, none,
      none, ""⟩]
    groupings := [] }

/-- Storage holding the normal dataset. -/
def normalStorage : Storage :=
  ⟨[("byte_2x3_6_categs", normalRel)],
   [("byte_2x3_6_categs.img", .rle (rleEncode [0, 1, 2, 3, 4, 5]))]⟩

/-- The 8×8 1-bit checkerboard relation file. -/
def chessRel : RelFile :=
  { isRel4 := true, versMetaDades := some 4, nCols := some 8, nRows := some 8
    gt := gtUnit
    bandSection := some [⟨"chess_bit.img", some 1, .raw, none, none, none, ""⟩]
    groupings := [] }

/-- Storage holding the checkerboard dataset. -/
def chessStorage : Storage :=
  ⟨[("chess_bit", chessRel)], [("chess_bit.img", .packedBits chessBytes)]⟩

/-- A well-formed band entry used by the open-error fixtures. -/
def okBand : RelBand := ⟨"b.img", some 2, .raw, none, none, none, ""⟩

/-- Empty storage: no relation files, no band files. -/
def emptyStorage : Storage := ⟨[], []⟩

/-- A relation file without the REL4 signature. -/
def relNotRel4 : RelFile := ⟨false, none, none, none, gtUnit, none, []⟩

/-- A REL4 relation file missing the `VersMetaDades` key. -/
def relNoVers : RelFile :=
  ⟨true, none, some 2, some 3, gtUnit, some [okBand], []⟩

/-- A relation file whose version is below the minimum. -/
def relLowVers : RelFile :=
  ⟨true, some 3, some 2, some 3, gtUnit, some [okBand], []⟩

/-- A relation file missing the columns key. -/
def relNoCols : RelFile :=
  ⟨true, some 4, none, some 3, gtUnit, some [okBand], []⟩

/-- A relation file missing the rows key. -/
def relNoRows : RelFile :=
  ⟨true, some 4, some 2, none, gtUnit, some [okBand], []⟩

/-- A relation file documenting a zero dimension. -/
def relZeroDims : RelFile :=
  ⟨true, some 4, some 0, some 3, gtUnit, some [okBand], []⟩

/-- A relation file missing the band-index section. -/
def relNoBandSection : RelFile :=
  ⟨true, some 4, some 2, some 3, gtUnit, none, []⟩

/-- A relation file whose band-index section lists no usable band. -/
def relZeroBands : RelFile :=
  ⟨true, some 4, some 2, some 3, gtUnit, some [], []⟩

/-- A relation file whose band lacks the data-type key. -/
def relNoType : RelFile :=
  ⟨true, some 4, some 2, some 3, gtUnit,
   some [⟨"b.img", none, .raw, none, none, none, ""⟩], []⟩

/-- A relation file whose band declares an unhandled data-type code. -/
def relWrongType : RelFile :=
  ⟨true, some 4, some 2, some 3, gtUnit,
   some [⟨"b.img", some 99, .raw, none, none, none, ""⟩], []⟩

/-- A relation file referencing a band file that cannot be opened. -/
def relWrongBandName : RelFile :=
  ⟨true, some 4, some 2, some 3, gtUnit,
   some [⟨"missing.img", some 2, .raw, none, none, none, ""⟩], []⟩

/-- Storage holding all the defective relation files (and the one band
file the well-formed entries reference). -/
def errorStorage : Storage :=
  ⟨[("notrel4", relNotRel4), ("novers", relNoVers), ("lowvers", relLowVers),
    ("nocols", relNoCols), ("norows", relNoRows), ("zerodims", relZeroDims),
    ("nosection", relNoBandSection), ("zerobands", relZeroBands),
    ("notype", relNoType), ("wrongtype", relWrongType),
    ("wrongband", relWrongBandName)],
   [("b.img", .raw [0, 1, 2, 3, 4, 5])]⟩

/-- The distinguishing messages of the open-time error taxonomy, in
check order. -/
def taxonomyMsgs : List String :=
  [unrecognizedMsg,
   "The file must be REL4",
   "The file must have VersMetaDades>=4",
   "No number of columns documented",
   "No number of rows documented",
   "(nWidth <= 0 || nHeight <= 0)",
   "ATTRIBUTE_DATA-IndexsNomsCamps section-key should exist",
   "it has zero usable bands",
   "MiraMonRaster: no nDataType documented",
   "MiraMonRaster: data type unhandled",
   "Failed to open MiraMon band file"]

/-! ## Theorems -/

/-- C1: warping the 4×3 byte source (nodata 2, values [2,127,127,2] per
row, geotransform (10,1,0,10,0,-1)) into the 6×3 destination (nodata 3,
pre-filled to 3, geotransform (10,2/3,0,10,0,-1)) with bilinear resampling
terminates with exactly the 18 pixel values
[3,127,127,127,3,3, 3,127,127,127,3,3, 3,127,127,127,3,3]: nodata-adjacent
source pixels never bleed nodata into covered destination pixels, and
uncovered destination pixels keep their pre-fill value. -/
theorem reproject_nodata_bilinear_prefilled :
    (reprojectBilinear srcNodataTest dstNodataPrefilled none).pix.map
        Frac.toInt? = expectedNodataOut.map some := by decide

/-- C4: the same scenario with the destination not pre-filled by the
caller and the warp instead initializing the destination to its band
nodata value 3 (`INIT_DEST=NO_DATA`) produces exactly the same 18 pixel
values: pixels the warp cannot resolve end up holding the nodata value 3
and the warp writes only pixels it can resolve. -/
theorem reproject_nodata_bilinear_initdest_nodata :
    (reprojectBilinear srcNodataTest dstNodataZeros
        dstNodataZeros.noData).pix.map Frac.toInt? =
      expectedNodataOut.map some := by decide

/-- C2: for every supported source and destination sample type, with
compression on or off and with or without an alternate naming pattern
(and for each class-column role the scenario parametrizes over), the
two-band create-copy followed by reopening reproduces the pixel data of
both bands in their original types, the raster geometry and band count,
the geotransform, nodata, the color table entries, the RAT (row count,
column names, typed cell values), the band unit, and the computed min/max
statistics of the written data. -/
theorem multiband_createcopy_roundtrip :
    (copyTypes.all fun t1 => copyTypes.all fun t2 =>
      [Compression.raw, Compression.rle].all fun comp =>
        [none, some "UserPattern"].all fun pat =>
          [FieldUsage.minMax, FieldUsage.minVal, FieldUsage.generic].all
            fun u => mbRoundtripOK t1 t2 comp pat u) = true := by decide

/-- C3: every non-conforming input in the open-time error taxonomy fails
to open and raises the distinguishing message for its case — file without
its mandatory companion, missing or below-minimum version, missing
columns key, missing rows key, non-positive dimensions, missing
band-index section, zero usable bands, missing data type, unhandled data
type, unreadable referenced band file — and the distinguished messages
are pairwise distinct, so the message is never generic or of the wrong
case. -/
theorem open_error_taxonomy :
    (∀ st base, openPath st (.relPath base false) = .error unrecognizedMsg) ∧
    (∀ st base, st.lookupRel base = none →
      openPath st (.imgPath base) = .error unrecognizedMsg) ∧
    (∀ st f, f.isRel4 = false →
      openRelFile st f = .error "The file must be REL4") ∧
    (∀ st f, f.isRel4 = true → f.versMetaDades = none →
      openRelFile st f = .error "The file must have VersMetaDades>=4") ∧
    (∀ st f v, f.isRel4 = true → f.versMetaDades = some v → v < 4 →
      openRelFile st f = .error "The file must have VersMetaDades>=4") ∧
    (∀ st f v, f.isRel4 = true → f.versMetaDades = some v → 4 ≤ v →
      f.nCols = none →
      openRelFile st f = .error "No number of columns documented") ∧
    (∀ st f v w, f.isRel4 = true → f.versMetaDades = some v → 4 ≤ v →
      f.nCols = some w → f.nRows = none →
      openRelFile st f = .error "No number of rows documented") ∧
    (∀ st f v w h, f.isRel4 = true → f.versMetaDades = some v → 4 ≤ v →
      f.nCols = some w → f.nRows = some h → (w ≤ 0 ∨ h ≤ 0) →
      openRelFile st f = .error "(nWidth <= 0 || nHeight <= 0)") ∧
    (∀ st f v w h, f.isRel4 = true → f.versMetaDades = some v → 4 ≤ v →
      f.nCols = some w → f.nRows = some h → 0 < w → 0 < h →
      f.bandSection = none →
      openRelFile st f =
        .error "ATTRIBUTE_DATA-IndexsNomsCamps section-key should exist") ∧
    (∀ st f v w h, f.isRel4 = true → f.versMetaDades = some v → 4 ≤ v →
      f.nCols = some w → f.nRows = some h → 0 < w → 0 < h →
      f.bandSection = some [] →
      openRelFile st f = .error "it has zero usable bands") ∧
    (∀ st f v w h b rest, f.isRel4 = true → f.versMetaDades = some v →
      4 ≤ v → f.nCols = some w → f.nRows = some h → 0 < w → 0 < h →
      f.bandSection = some (b :: rest) → b.dataTypeCode = none →
      openRelFile st f = .error "MiraMonRaster: no nDataType documented") ∧
    (∀ st f v w h b rest c, f.isRel4 = true → f.versMetaDades = some v →
      4 ≤ v → f.nCols = some w → f.nRows = some h → 0 < w → 0 < h →
      f.bandSection = some (b :: rest) → b.dataTypeCode = some c →
      decodeDataType c = none →
      openRelFile st f = .error "MiraMonRaster: data type unhandled") ∧
    (∀ st f v w h b rest c t, f.isRel4 = true → f.versMetaDades = some v →
      4 ≤ v → f.nCols = some w → f.nRows = some h → 0 < w → 0 < h →
      f.bandSection = some (b :: rest) → b.dataTypeCode = some c →
      decodeDataType c = some t → st.lookupStream b.fileName = none →
      openRelFile st f = .error "Failed to open MiraMon band file") ∧
    taxonomyMsgs.Pairwise (· ≠ ·) := by
  refine ⟨?_, ?_, ?_, ?_, ?_, ?_, ?_, ?_, ?_, ?_, ?_, ?_, ?_, ?_⟩
  · intro st base; simp [openPath, identify]
  · intro st base h; simp [openPath, identify, h]
  · intro st f h; simp [openRelFile, h]
  · intro st f h1 h2; simp [openRelFile, h1, h2]
  · intro st f v h1 h2 h3; simp [openRelFile, h1, h2, h3]
  · intro st f v h1 h2 h3 h4
    simp [openRelFile, h1, h2, h4, Int.not_lt.mpr h3]
  · intro st f v w h1 h2 h3 h4 h5
    simp [openRelFile, h1, h2, h4, h5, Int.not_lt.mpr h3]
  · intro st f v w h h1 h2 h3 h4 h5 h6
    simp [openRelFile, h1, h2, h4, h5, Int.not_lt.mpr h3, h6]
  · intro st f v w h h1 h2 h3 h4 h5 h6 h7 h8
    simp [openRelFile, h1, h2, h4, h5, h8, Int.not_lt.mpr h3]
    omega
  · intro st f v w h h1 h2 h3 h4 h5 h6 h7 h8
    simp [openRelFile, h1, h2, h4, h5, h8, Int.not_lt.mpr h3]
    omega
  · intro st f v w h b rest h1 h2 h3 h4 h5 h6 h7 h8 h9
    have hd : ¬(w ≤ 0 ∨ h ≤ 0) := by omega
    simp [openRelFile, h1, h2, h4, h5, h8, Int.not_lt.mpr h3, hd,
      openBands, openBand, h9, Except.map]
  · intro st f v w h b rest c h1 h2 h3 h4 h5 h6 h7 h8 h9 h10
    have hd : ¬(w ≤ 0 ∨ h ≤ 0) := by omega
    simp [openRelFile, h1, h2, h4, h5, h8, Int.not_lt.mpr h3, hd,
      openBands, openBand, h9, h10, Except.map]
  · intro st f v w h b rest c t h1 h2 h3 h4 h5 h6 h7 h8 h9 h10 h11
    have hd : ¬(w ≤ 0 ∨ h ≤ 0) := by omega
    simp [openRelFile, h1, h2, h4, h5, h8, Int.not_lt.mpr h3, hd,
      openBands, openBand, h9, h10, h11, Except.map]
  · decide

/-- Witness for C3: each taxonomy case realized on a concrete defective
relation file produces exactly its distinguished message. -/
theorem open_error_taxonomy_witness :
    openPath emptyStorage (.relPath "alone_rel" false) =
      .error unrecognizedMsg ∧
    openPath emptyStorage (.imgPath "empy_img") = .error unrecognizedMsg ∧
    openRelFile errorStorage relNotRel4 = .error "The file must be REL4" ∧
    openRelFile errorStorage relNoVers =
      .error "The file must have VersMetaDades>=4" ∧
    openRelFile errorStorage relLowVers =
      .error "The file must have VersMetaDades>=4" ∧
    openRelFile errorStorage relNoCols =
      .error "No number of columns documented" ∧
    openRelFile errorStorage relNoRows =
      .error "No number of rows documented" ∧
    openRelFile errorStorage relZeroDims =
      .error "(nWidth <= 0 || nHeight <= 0)" ∧
    openRelFile errorStorage relNoBandSection =
      .error "ATTRIBUTE_DATA-IndexsNomsCamps section-key should exist" ∧
    openRelFile errorStorage relZeroBands =
      .error "it has zero usable bands" ∧
    openRelFile errorStorage relNoType =
      .error "MiraMonRaster: no nDataType documented" ∧
    openRelFile errorStorage relWrongType =
      .error "MiraMonRaster: data type unhandled" ∧
    openRelFile errorStorage relWrongBandName =
      .error "Failed to open MiraMon band file" := by
  obtain ⟨c1, c2, c3, c4, c5, c6, c7, c8, c9, c10, c11, c12, c13, -⟩ :=
    open_error_taxonomy
  exact ⟨c1 emptyStorage "alone_rel",
    c2 emptyStorage "empy_img" (by decide),
    c3 errorStorage relNotRel4 (by decide),
    c4 errorStorage relNoVers (by decide) (by decide),
    c5 errorStorage relLowVers 3 (by decide) (by decide) (by decide),
    c6 errorStorage relNoCols 4 (by decide) (by decide) (by decide)
      (by decide),
    c7 errorStorage relNoRows 4 2 (by decide) (by decide) (by decide)
      (by decide) (by decide),
    c8 errorStorage relZeroDims 4 0 3 (by decide) (by decide) (by decide)
      (by decide) (by decide) (by decide),
    c9 errorStorage relNoBandSection 4 2 3 (by decide) (by decide)
      (by decide) (by decide) (by decide) (by decide) (by decide)
      (by decide),
    c10 errorStorage relZeroBands 4 2 3 (by decide) (by decide) (by decide)
      (by decide) (by decide) (by decide) (by decide) (by decide),
    c11 errorStorage relNoType 4 2 3 ⟨"b.img", none, .raw, none, none,
      none, ""⟩ [] (by decide) (by decide) (by decide) (by decide)
      (by decide) (by decide) (by decide) (by decide) (by decide),
    c12 errorStorage relWrongType 4 2 3 ⟨"b.img", some 99, .raw, none,
      none, none, ""⟩ [] 99 (by decide) (by decide) (by decide) (by decide)
      (by decide) (by decide) (by decide) (by decide) (by decide)
      (by decide),
    c13 errorStorage relWrongBandName 4 2 3 ⟨"missing.img", some 2, .raw,
      none, none, none, ""⟩ [] 2 .u8 (by decide) (by decide) (by decide)
      (by decide) (by decide) (by decide) (by decide) (by decide)
      (by decide) (by decide) (by decide)⟩

/-- C5: `deriveColorTable` on a RAT whose columns carry red, green and
blue roles plus a class-identifying column — either one combined value
column or separate min/max columns giving [c, c+1) per row — maps each
class index 0–5 to that row's RGB triplet with alpha 255, and the derived
table is identical for the two encodings of the same classes. -/
theorem derive_color_table_combined_and_ranges :
    deriveColorTable ratCombined = some expectedDerivedCT ∧
    deriveColorTable ratSeparate = some expectedDerivedCT ∧
    (List.range 6).all (fun c =>
      getColorEntry expectedDerivedCT (c : ℤ) ==
        some (ctColors.getD c ⟨0, 0, 0, 0⟩)) = true := by decide

/-- C6: the 1-bit decoder unpacks 8 samples per byte in the format's
fixed (most-significant-bit-first) order: the 8×8 checkerboard band whose
packed bytes alternate 0x55/0xAA reads back as exactly
pixel(i,j) = (i+j) mod 2, both at the codec level and through the driver
facade. -/
theorem bit1_checkerboard_decode :
    decodeStream (.packedBits chessBytes) 64 =
      some (chessPattern.map Frac.ofInt) ∧
    (openPath chessStorage (.relPath "chess_bit" true)).map
        (fun ds => ds.bands.map MMBand.samples) =
      .ok [chessPattern.map Frac.ofInt] := by decide

/-- C7: create-copy of a 3-band RGB-interpreted source writes exactly one
pixel file per channel, suffixed `_R`/`_G`/`_B` from the output base
name, plus a single relation file (and the `.mmm` sidecar), persists no
palette and no RAT, and reopening the relation file yields a 3-band
dataset with the source's per-channel pixel values. -/
theorem rgb_createcopy_layout_and_roundtrip :
    writtenFileNames rgbWritten =
      ["rgb_primaryI.rel", "rgb_primary_R.img", "rgb_primary_G.img",
       "rgb_primary_B.img", "rgb_primary.mmm"] ∧
    (rgbWritten.rel.bandSection.getD []).all
      (fun b => b.storedColorTable == none && b.attrTable == none) = true ∧
    (reopen rgbWritten).map
        (fun ds => (ds.bands.length, ds.bands.map MMBand.samples)) =
      .ok (3, [[255, 0, 0], [0, 255, 0], [0, 0, 255]]) := by decide

/-- C8: a RAT lacking the required R/G/B color roles derives no color
table (`deriveColorTable` returns none for every such table), and the
"Automatic" categorical-styling dataset opens without error with no color
table on its band — absence of a derivable color table is never an
error. -/
theorem missing_rgb_roles_yield_no_color_table :
    (∀ t : AttributeTable,
      t.findCol .red = none ∨ t.findCol .green = none ∨
        t.findCol .blue = none →
      deriveColorTable t = none) ∧
    (openPath automaticStorage (.relPath "autom" true)).map
        (fun ds => ds.bands.map MMBand.colorTable) = .ok [none] := by
  constructor
  · intro t h
    rcases h with h | h | h
    · simp [deriveColorTable, h]
    · cases hr : t.findCol .red <;> simp [deriveColorTable, hr, h]
    · cases hr : t.findCol .red <;> cases hg : t.findCol .green <;>
        simp [deriveColorTable, hr, hg, h]
  · decide

/-- Witness for C8: the "Automatic" RAT, which has no red-role column,
derives no color table. -/
theorem missing_rgb_roles_yield_no_color_table_witness :
    deriveColorTable automaticRat = none :=
  missing_rgb_roles_yield_no_color_table.1 automaticRat
    (Or.inl (by decide))

/-- C9: listing the subdatasets of the three-grouping relation file
returns three (identifier, description) pairs whose identifiers are
built deterministically from the relation path plus the subdataset index,
and opening each identifier yields an independent dataset restricted to
that grouping's band, with that grouping's own pixel values and per-band
nodata (absent, 255 and 0 respectively). -/
theorem subdataset_enumeration_stable_and_openable :
    listSubdatasets multibandStorage "byte_2x3_6_multiband" =
      [(⟨"byte_2x3_6_multiband", 1⟩, subdatasetDesc "byte_2x3_6_multiband"),
       (⟨"byte_2x3_6_multiband", 2⟩, subdatasetDesc "byte_2x3_6_multiband"),
       (⟨"byte_2x3_6_multiband", 3⟩,
        subdatasetDesc "byte_2x3_6_multiband")] ∧
    openSubdataset multibandStorage ⟨"byte_2x3_6_multiband", 1⟩ =
      .ok ⟨2, 3, gtUnit, [⟨.u8, [0, 1, 2, 3, 4, 5], none, none, none, ""⟩]⟩ ∧
    openSubdataset multibandStorage ⟨"byte_2x3_6_multiband", 2⟩ =
      .ok ⟨2, 3, gtUnit,
        [⟨.u8, [0, 1, 2, 3, 4, 255], some 255, none, none, ""⟩]⟩ ∧
    openSubdataset multibandStorage ⟨"byte_2x3_6_multiband", 3⟩ =
      .ok ⟨2, 3, gtUnit,
        [⟨.u8, [0, 1, 2, 3, 4, 5], some 0, none, none, ""⟩]⟩ := by decide

/-- C10: opening a MiraMon dataset through its physical pixel file and
through its companion relation file are interchangeable: whenever the
relation file and the pixel file both exist, both entry points reduce to
opening the same parsed relation file, hence yield equal datasets (same
band types, same per-pixel values) for every storage, every sample type
and both raw and run-length-encoded band files. -/
theorem img_and_rel_open_equivalent :
    ∀ (st : Storage) (base : String) (f : RelFile),
      st.lookupRel base = some f →
      (st.lookupStream (base ++ ".img")).isSome = true →
      openPath st (.imgPath base) = openRelFile st f ∧
      openPath st (.relPath base true) = openRelFile st f := by
  intro st base f h1 h2
  constructor <;> simp [openPath, identify, h1, h2]

/-- Witness for C10: the two entry points agree on the concrete
run-length-encoded byte dataset. -/
theorem img_and_rel_open_equivalent_witness :
    openPath normalStorage (.imgPath "byte_2x3_6_categs") =
      openPath normalStorage (.relPath "byte_2x3_6_categs" true) := by
  have h := img_and_rel_open_equivalent normalStorage "byte_2x3_6_categs"
    normalRel (by decide) (by decide)
  rw [h.1, h.2]

end GdalSpec
